import Mathlib

set_option maxHeartbeats 1000000

/-
Shallow embedding of rave-level's src/index.js (leader election, promotion,
flush barrier, destroy routine, server close routine, rendezvous address
derivation).  The callback-driven election step `[kConnect]` is embedded as a
function from an oracle of asynchronous outcomes (`ConnectEnv`: the status the
facade is observed to have at each resumption point, the result of each I/O
operation) to the ordered list of effects the code performs (`List Action`).
The recursive immediate retry `this[kConnect]()` and the delayed retry
`setTimeout(this[kConnect], 100)` are recorded as terminal trace actions
(`retryNow`, `retryAfter 100`): each element of the trace is one effect of the
single election attempt, in program order.
-/

namespace RaveLevel

/-- Facade lifecycle status mirroring abstract-level's `status` field
('opening' | 'open' | 'closing' | 'closed'); `opened` stands for 'open'. -/
inductive Status where
  | opening
  | opened
  | closing
  | closed
deriving DecidableEq, Repr

/-- Cause object carried by a JS error; only its `code` field is ever read
(line 71 reads `err.cause.code`). -/
structure ErrCause where
  code : Option String
deriving DecidableEq, Repr

/-- Shallow JS error: just the fields index.js reads (`code` at line 93,
`cause` at line 71). -/
structure JsError where
  code : Option String
  cause : Option ErrCause
deriving DecidableEq, Repr

/-- Test from line 71: `err.cause && err.cause.code === 'LEVEL_LOCKED'`. -/
def isLevelLocked (e : JsError) : Bool :=
  match e.cause with
  | some c => c.code == some "LEVEL_LOCKED"
  | none => false

/-- Fatal errors passed to `this[kDestroy]`, tagged by the raising site.
`didNotFlush` models `new ModuleError('Did not flush', { cause: err })`
(line 151) and carries the loopback pipeline's end cause. -/
inductive Fatal where
  | openErr (e : JsError)
  | unlinkErr (e : JsError)
  | serverErr (e : JsError)
  | didNotFlush (cause : Option JsError)
deriving DecidableEq, Repr

/-- One observable effect performed by the election attempt, in program
order. -/
inductive Action where
  | netConnect
  | attachDb
  | detachDb
  | retryNow
  | retryAfter (ms : Nat)
  | destroy (f : Fatal)
  | unlinkSocket
  | attachServer
  | forwardToDb
  | listen
  | emitLeader
  | flushConnect
deriving DecidableEq, Repr

/-- Outcome of `server.listen`: either the listen callback fires (`ok`) or the
server emits 'error' (routed to `this[kDestroy]`, line 111). -/
inductive ListenOutcome where
  | ok
  | err (e : JsError)
deriving DecidableEq, Repr

/-- Oracle for one run of `[kConnect]`: the facade status observed at each
status check, and the outcome of each asynchronous operation.

Field map to src/index.js:
* `status0`: status at entry (line 38).
* `connectFired`: whether the socket's 'connect' event fired before the
  follower pipeline ended (the `connected` flag, lines 46-48).
* `status1`: status observed after the follower pipeline ends (line 55).
* `openResult`: result of `db.open` (line 65); `none` is success.
* `status2`: status observed after a successful open (line 83).
* `status3`: status observed inside the unlink callback (line 89).
* `unlinkResult`: result of `fs.unlink` (line 88); `none` is success.
* `listenOutcome`: whether `server.listen` succeeds or the server errors.
* `status4`: status observed in the listen callback (line 132).
* `status5`: status observed after `this.emit('leader')` (line 138).
* `flushed0`: `this.isFlushed()` at the post-leader check (line 138).
* `flushPipeErr`: the `err` of the loopback pipeline callback (line 146).
* `flushedAtEnd`: `this.isFlushed()` when the loopback pipeline ends.
* `status6`: status observed when the loopback pipeline ends (line 150). -/
structure ConnectEnv where
  status0 : Status
  connectFired : Bool
  status1 : Status
  openResult : Option JsError
  status2 : Status
  status3 : Status
  unlinkResult : Option JsError
  listenOutcome : ListenOutcome
  status4 : Status
  status5 : Status
  flushed0 : Bool
  flushPipeErr : Option JsError
  flushedAtEnd : Bool
  status6 : Status

/-- Loopback pipeline end callback (lines 146-153): destroy with
'Did not flush' carrying the cause iff not flushed and still open. -/
def afterFlushPipe (env : ConnectEnv) : List Action :=
  if env.flushedAtEnd = false ∧ env.status6 = Status.opened then
    [Action.destroy (Fatal.didNotFlush env.flushPipeErr)]
  else []

/-- Listen callback (lines 129-156): check status, emit 'leader', check status
and flushedness, then open the loopback flush connection. -/
def listenCallback (env : ConnectEnv) : List Action :=
  if env.status4 ≠ Status.opened then []
  else
    Action.emitLeader ::
      (if env.status5 ≠ Status.opened ∨ env.flushed0 = true then []
       else Action.flushConnect :: afterFlushPipe env)

/-- Leader server phase (lines 97-156): attach the server resource, forward
the facade to the db (direct mode), then listen; a server 'error' is routed
to destroy, otherwise the listen callback runs. -/
def serverPhase (env : ConnectEnv) : List Action :=
  Action.attachServer :: Action.forwardToDb :: Action.listen ::
    (match env.listenOutcome with
     | ListenOutcome.err e => [Action.destroy (Fatal.serverErr e)]
     | ListenOutcome.ok => listenCallback env)

/-- Unlink callback (lines 88-95): check status first, then treat any unlink
error other than ENOENT as fatal; otherwise proceed to the server phase. -/
def unlinkCallback (env : ConnectEnv) : List Action :=
  if env.status3 ≠ Status.opened then []
  else
    match env.unlinkResult with
    | some e =>
        if e.code ≠ some "ENOENT" then [Action.destroy (Fatal.unlinkErr e)]
        else serverPhase env
    | none => serverPhase env

/-- Open callback (lines 65-158): on failure detach the db, then retry on
lock contention (immediately if `connected`, after 100ms otherwise) or
destroy; on success check status and unlink the stale socket artifact. -/
def openCallback (env : ConnectEnv) : List Action :=
  match env.openResult with
  | some e =>
      Action.detachDb ::
        (if isLevelLocked e then
           (if env.connectFired then [Action.retryNow] else [Action.retryAfter 100])
         else [Action.destroy (Fatal.openErr e)])
  | none =>
      if env.status2 ≠ Status.opened then []
      else Action.unlinkSocket :: unlinkCallback env

/-- The election attempt `[kConnect]` (lines 36-160): no-op unless open;
connect as follower, attach the db handle, then run the open callback once
the follower pipeline ends. -/
def kConnect (env : ConnectEnv) : List Action :=
  if env.status0 ≠ Status.opened then []
  else
    Action.netConnect ::
      (if env.status1 ≠ Status.opened then []
       else Action.attachDb :: openCallback env)

/-- Signal emitted on the facade. -/
inductive Signal where
  | errorSignal (f : Fatal)
deriving DecidableEq, Repr

/-- The destroy routine `[kDestroy]` (lines 162-167): emit 'error' only when
status is exactly 'open'. -/
def kDestroy (status : Status) (f : Fatal) : List Signal :=
  if status = Status.opened then [Signal.errorSignal f] else []

/-- Fatal errors extracted from a trace, in order. -/
def destroys (tr : List Action) : List Fatal :=
  tr.filterMap fun a =>
    match a with
    | Action.destroy f => some f
    | _ => none

/-- Index of the first occurrence of `a` in a list, if any. -/
def firstIdx [DecidableEq α] (a : α) : List α → Option Nat
  | [] => none
  | b :: tr => if a = b then some 0 else (firstIdx a tr).map (· + 1)

/-- Whether the first occurrence of `a` strictly precedes the first
occurrence of `b`. -/
def occursBefore [DecidableEq α] (tr : List α) (a b : α) : Bool :=
  match firstIdx a tr, firstIdx b tr with
  | some i, some j => decide (i < j)
  | _, _ => false

/-- One observable effect of the leader server's lifecycle. -/
inductive SrvAction where
  | destroySock (id : Nat)
  | removeErrorListener
  | serverClose
  | closeCallback
  | emitErrorSrv (e : JsError)
deriving DecidableEq, Repr

/-- Accept handler (lines 102-109): `sockets.add(sock)` on a JS `Set`
(adding a present element is a no-op; insertion order is kept). -/
def onConnection (sockets : List Nat) (sock : Nat) : List Nat :=
  if sock ∈ sockets then sockets else sockets ++ [sock]

/-- Per-connection pipeline end handler (lines 106-108):
`sockets.delete(sock)` and nothing else — no error is raised. -/
def onPipeEnd (sockets : List Nat) (sock : Nat) : List Nat × List SrvAction :=
  (sockets.erase sock, [])

/-- The server's `close` routine (lines 113-120): destroy every socket in the
active set, remove the error listener, then `server.close(cb)` (the callback
fires after the listener stops). -/
def closeServer (sockets : List Nat) : List SrvAction :=
  (sockets.map SrvAction.destroySock) ++
    [SrvAction.removeErrorListener, SrvAction.serverClose, SrvAction.closeCallback]

/-- Test whether a string ends with a slash (structural model primitive, so
that concrete instances reduce in the kernel). -/
def endsWithSlash (s : String) : Bool :=
  match s.data.getLast? with
  | some c => c = '/'
  | none => false

/-- Test whether a string starts with a slash. -/
def startsWithSlash (s : String) : Bool :=
  match s.data with
  | c :: _ => c = '/'
  | [] => false

/-- Rendezvous address derivation (lines 170-177): a named pipe on win32,
otherwise a socket file inside the store directory.  `pathJoin` models
Node's `path.join(location, 'rave-level.sock')` for an already-resolved
location. -/
def pathJoin (a b : String) : String :=
  if endsWithSlash a then a ++ b else a ++ "/" ++ b

/-- The `socketPath` function (lines 170-177). -/
def socketPath (platform : String) (location : String) : String :=
  if platform = "win32" then "\\\\.\\pipe\\rave-level\\" ++ location
  else pathJoin location "rave-level.sock"

/-- Split a character list on '/', keeping empty segments. -/
def splitSlash : List Char → List (List Char)
  | [] => [[]]
  | c :: rest =>
    if c = '/' then [] :: splitSlash rest
    else
      match splitSlash rest with
      | [] => [[c]]
      | h :: t => (c :: h) :: t

/-- Normalization step of path resolution: drop empty and '.' segments, pop
one segment on '..'. -/
def normalizeParts (parts : List (List Char)) : List (List Char) :=
  parts.foldl
    (fun acc p =>
      if p = [] ∨ p = ['.'] then acc
      else if p = ['.', '.'] then acc.dropLast
      else acc ++ [p])
    []

/-- Join segments with '/' separators. -/
def joinSlash : List (List Char) → List Char
  | [] => []
  | [p] => p
  | p :: rest => p ++ '/' :: joinSlash rest

/-- Model of Node's `path.resolve(location)` (external collaborator, POSIX
family): prepend the working directory when the location is relative, then
canonicalize '.' and '..' segments.  The constructor stores
`this[kLocation] = path.resolve(location)` (line 27). -/
def resolvePath (cwd location : String) : String :=
  let s := if startsWithSlash location then location else cwd ++ "/" ++ location
  String.mk ('/' :: joinSlash (normalizeParts (splitSlash s.data)))

/-- The channel address a facade derives, as in the constructor (lines
27-28): `this[kSocketPath] = socketPath(path.resolve(location))`. -/
def channelAddress (platform cwd location : String) : String :=
  socketPath platform (resolvePath cwd location)

/-- A fully successful promotion run: every status check sees 'open', the
engine opens, the stale-artifact unlink succeeds, listening succeeds, the
facade is unflushed when the barrier starts and flushed when the loopback
pipeline ends. -/
def envHappy : ConnectEnv :=
  { status0 := Status.opened, connectFired := true, status1 := Status.opened,
    openResult := none, status2 := Status.opened, status3 := Status.opened,
    unlinkResult := none, listenOutcome := ListenOutcome.ok,
    status4 := Status.opened, status5 := Status.opened, flushed0 := false,
    flushPipeErr := none, flushedAtEnd := true, status6 := Status.opened }

/-- A LEVEL_LOCKED open failure (`err.cause.code === 'LEVEL_LOCKED'`). -/
def lockedErr : JsError :=
  { code := none, cause := some { code := some "LEVEL_LOCKED" } }

/-- A non-lock open failure. -/
def accessErr : JsError := { code := some "EACCES", cause := none }

/-- An ENOENT unlink failure (artifact absent). -/
def enoentErr : JsError := { code := some "ENOENT", cause := none }

/-- A non-ENOENT unlink failure. -/
def epermErr : JsError := { code := some "EPERM", cause := none }

/-- C10: the destroy routine is a no-op unless the facade status is exactly
'open' — a fatal error that arrives in any other status is silently
discarded, with no error signal ever emitted for it; in status 'open' it
emits exactly the one error signal. -/
theorem c10_destroy_noop_unless_open (st : Status) (f : Fatal) :
    (st ≠ Status.opened → kDestroy st f = []) ∧
    (st = Status.opened → kDestroy st f = [Signal.errorSignal f]) := by
  constructor
  · intro h
    simp [kDestroy, h]
  · intro h
    simp [kDestroy, h]

theorem c10_witness :
    kDestroy Status.closing (Fatal.openErr accessErr) = [] ∧
    kDestroy Status.opened (Fatal.openErr accessErr) =
      [Signal.errorSignal (Fatal.openErr accessErr)] :=
  ⟨(c10_destroy_noop_unless_open Status.closing (Fatal.openErr accessErr)).1 (by decide),
   (c10_destroy_noop_unless_open Status.opened (Fatal.openErr accessErr)).2 rfl⟩

/-- C2: on an 'already locked' engine-open failure, the handle is detached
and the election is retried — immediately when the prior follower connection
had connected, after a fixed 100ms delay when it had not — and no destroy
(hence no error surfaced to the caller) occurs on this path. -/
theorem c2_lock_contention_retry (env : ConnectEnv) (e : JsError)
    (h0 : env.status0 = Status.opened) (h1 : env.status1 = Status.opened)
    (he : env.openResult = some e) (hl : isLevelLocked e = true) :
    kConnect env =
      [Action.netConnect, Action.attachDb, Action.detachDb,
       if env.connectFired then Action.retryNow else Action.retryAfter 100] ∧
    ∀ f, Action.destroy f ∉ kConnect env := by
  constructor
  · simp [kConnect, openCallback, h0, h1, he, hl]
    cases env.connectFired <;> simp
  · intro f
    simp [kConnect, openCallback, h0, h1, he, hl]
    cases env.connectFired <;> simp

theorem c2_witness :
    kConnect { envHappy with openResult := some lockedErr } =
      [Action.netConnect, Action.attachDb, Action.detachDb, Action.retryNow] ∧
    kConnect { envHappy with openResult := some lockedErr, connectFired := false } =
      [Action.netConnect, Action.attachDb, Action.detachDb, Action.retryAfter 100] ∧
    ∀ f, Action.destroy f ∉
      kConnect { envHappy with openResult := some lockedErr } := by
  refine ⟨?_, ?_, ?_⟩
  · have h := c2_lock_contention_retry
      { envHappy with openResult := some lockedErr } lockedErr rfl rfl rfl (by decide)
    exact h.1.trans (by decide)
  · have h := c2_lock_contention_retry
      { envHappy with openResult := some lockedErr, connectFired := false }
      lockedErr rfl rfl rfl (by decide)
    exact h.1.trans (by decide)
  · exact (c2_lock_contention_retry
      { envHappy with openResult := some lockedErr } lockedErr rfl rfl rfl (by decide)).2

/-- C9: whenever the engine open fails — for any reason — the handle is
detached right away, before the retry or destroy action runs, and the trace
attaches and detaches the handle the same number of times (the registry is
left balanced, so a later facade close never closes the failed handle). -/
theorem c9_detach_on_open_failure (env : ConnectEnv) (e : JsError)
    (h0 : env.status0 = Status.opened) (h1 : env.status1 = Status.opened)
    (he : env.openResult = some e) :
    kConnect env =
      [Action.netConnect, Action.attachDb, Action.detachDb,
       if isLevelLocked e then
         (if env.connectFired then Action.retryNow else Action.retryAfter 100)
       else Action.destroy (Fatal.openErr e)] ∧
    (kConnect env).count Action.attachDb = (kConnect env).count Action.detachDb := by
  have htr : kConnect env =
      [Action.netConnect, Action.attachDb, Action.detachDb,
       if isLevelLocked e then
         (if env.connectFired then Action.retryNow else Action.retryAfter 100)
       else Action.destroy (Fatal.openErr e)] := by
    simp [kConnect, openCallback, h0, h1, he]
    cases isLevelLocked e <;> cases env.connectFired <;> simp
  refine ⟨htr, ?_⟩
  rw [htr]
  cases isLevelLocked e <;> cases env.connectFired <;>
    simp [List.count_cons]

theorem c9_witness :
    kConnect { envHappy with openResult := some accessErr } =
      [Action.netConnect, Action.attachDb, Action.detachDb,
       Action.destroy (Fatal.openErr accessErr)] ∧
    (kConnect { envHappy with openResult := some accessErr }).count Action.attachDb =
      (kConnect { envHappy with openResult := some accessErr }).count Action.detachDb := by
  have h := c9_detach_on_open_failure
    { envHappy with openResult := some accessErr } accessErr rfl rfl rfl
  exact ⟨h.1.trans (by decide), h.2⟩

/-- C6: after winning the lock, an ENOENT failure of the stale-artifact
unlink is ignored — the rest of promotion proceeds exactly as in the
no-artifact (successful unlink) case — while any other unlink error is fatal
and destroys the facade with that error. -/
theorem c6_stale_artifact_cleanup (env : ConnectEnv) (e : JsError)
    (h0 : env.status0 = Status.opened) (h1 : env.status1 = Status.opened)
    (ho : env.openResult = none) (h2 : env.status2 = Status.opened)
    (h3 : env.status3 = Status.opened) :
    (env.unlinkResult = some e → e.code = some "ENOENT" →
       kConnect env = kConnect { env with unlinkResult := none }) ∧
    (env.unlinkResult = some e → e.code ≠ some "ENOENT" →
       kConnect env =
         [Action.netConnect, Action.attachDb, Action.unlinkSocket,
          Action.destroy (Fatal.unlinkErr e)]) := by
  constructor
  · intro hu hc
    simp [kConnect, openCallback, unlinkCallback, serverPhase, listenCallback,
          afterFlushPipe, h0, h1, ho, h2, h3, hu, hc]
  · intro hu hc
    simp [kConnect, openCallback, unlinkCallback, h0, h1, ho, h2, h3, hu, hc]

theorem c6_witness :
    kConnect { envHappy with unlinkResult := some enoentErr } = kConnect envHappy ∧
    kConnect { envHappy with unlinkResult := some epermErr } =
      [Action.netConnect, Action.attachDb, Action.unlinkSocket,
       Action.destroy (Fatal.unlinkErr epermErr)] := by
  have h1 := (c6_stale_artifact_cleanup
    { envHappy with unlinkResult := some enoentErr } enoentErr
    rfl rfl rfl rfl rfl).1 rfl (by decide)
  have h2 := (c6_stale_artifact_cleanup
    { envHappy with unlinkResult := some epermErr } epermErr
    rfl rfl rfl rfl rfl).2 rfl (by decide)
  exact ⟨h1, h2⟩

/-- C3: if the flush barrier's loopback pipeline ends while the facade is
still open and not yet flushed, the facade is destroyed with the descriptive
'Did not flush' error carrying the pipeline's end cause; if it is already
flushed or no longer open at that point, no destroy (hence no error) is
raised anywhere in the run. -/
theorem c3_flush_barrier_failure (env : ConnectEnv)
    (h0 : env.status0 = Status.opened) (h1 : env.status1 = Status.opened)
    (ho : env.openResult = none) (h2 : env.status2 = Status.opened)
    (h3 : env.status3 = Status.opened) (hu : env.unlinkResult = none)
    (hl : env.listenOutcome = ListenOutcome.ok)
    (h4 : env.status4 = Status.opened) (h5 : env.status5 = Status.opened)
    (hf : env.flushed0 = false) :
    (env.flushedAtEnd = false → env.status6 = Status.opened →
       kConnect env =
         [Action.netConnect, Action.attachDb, Action.unlinkSocket,
          Action.attachServer, Action.forwardToDb, Action.listen,
          Action.emitLeader, Action.flushConnect,
          Action.destroy (Fatal.didNotFlush env.flushPipeErr)]) ∧
    (env.flushedAtEnd = true ∨ env.status6 ≠ Status.opened →
       ∀ f, Action.destroy f ∉ kConnect env) := by
  constructor
  · intro hfe h6
    simp [kConnect, openCallback, unlinkCallback, serverPhase, listenCallback,
          afterFlushPipe, h0, h1, ho, h2, h3, hu, hl, h4, h5, hf, hfe, h6]
  · intro hor f
    rcases hor with hfe | h6
    · simp [kConnect, openCallback, unlinkCallback, serverPhase, listenCallback,
            afterFlushPipe, h0, h1, ho, h2, h3, hu, hl, h4, h5, hf, hfe]
    · simp [kConnect, openCallback, unlinkCallback, serverPhase, listenCallback,
            afterFlushPipe, h0, h1, ho, h2, h3, hu, hl, h4, h5, hf, h6]

theorem c3_witness :
    kConnect { envHappy with flushedAtEnd := false } =
      [Action.netConnect, Action.attachDb, Action.unlinkSocket,
       Action.attachServer, Action.forwardToDb, Action.listen,
       Action.emitLeader, Action.flushConnect,
       Action.destroy (Fatal.didNotFlush none)] ∧
    ∀ f, Action.destroy f ∉ kConnect envHappy := by
  refine ⟨?_, ?_⟩
  · exact ((c3_flush_barrier_failure { envHappy with flushedAtEnd := false }
      rfl rfl rfl rfl rfl rfl rfl rfl rfl rfl).1 rfl rfl).trans (by decide)
  · exact (c3_flush_barrier_failure envHappy
      rfl rfl rfl rfl rfl rfl rfl rfl rfl rfl).2 (Or.inl rfl)

/-- C1 counterexample: in the concrete successful-promotion run `envHappy`
the flush barrier's loopback connection (`flushConnect`) is opened strictly
after the switch to direct mode (`forwardToDb`) and after the 'leader'
emission — the claimed order (barrier first, then mode switch and signal)
is false on this execution. -/
theorem c1_counterexample :
    Action.forwardToDb ∈ kConnect envHappy ∧
    Action.flushConnect ∈ kConnect envHappy ∧
    occursBefore (kConnect envHappy) Action.flushConnect Action.forwardToDb = false ∧
    occursBefore (kConnect envHappy) Action.forwardToDb Action.flushConnect = true ∧
    occursBefore (kConnect envHappy) Action.flushConnect Action.emitLeader = false ∧
    occursBefore (kConnect envHappy) Action.emitLeader Action.flushConnect = true := by
  decide

/-- C1 (amended): in every execution that reaches the flush barrier, the
leader-elect switches the facade to direct mode before the server starts
listening, emits 'leader' after listening succeeds, and only then opens the
barrier's loopback connection; hence by the time the barrier resolves the
mode switch has already happened — because it precedes the barrier, not
because it follows it. -/
theorem c1_forward_precedes_flush (env : ConnectEnv)
    (h0 : env.status0 = Status.opened) (h1 : env.status1 = Status.opened)
    (ho : env.openResult = none) (h2 : env.status2 = Status.opened)
    (h3 : env.status3 = Status.opened) (hu : env.unlinkResult = none)
    (hl : env.listenOutcome = ListenOutcome.ok)
    (h4 : env.status4 = Status.opened) (h5 : env.status5 = Status.opened)
    (hf : env.flushed0 = false) :
    occursBefore (kConnect env) Action.forwardToDb Action.listen = true ∧
    occursBefore (kConnect env) Action.listen Action.emitLeader = true ∧
    occursBefore (kConnect env) Action.emitLeader Action.flushConnect = true ∧
    occursBefore (kConnect env) Action.forwardToDb Action.flushConnect = true := by
  have htr : kConnect env =
      [Action.netConnect, Action.attachDb, Action.unlinkSocket,
       Action.attachServer, Action.forwardToDb, Action.listen,
       Action.emitLeader, Action.flushConnect] ++ afterFlushPipe env := by
    simp [kConnect, openCallback, unlinkCallback, serverPhase, listenCallback,
          h0, h1, ho, h2, h3, hu, hl, h4, h5, hf]
  rw [htr]
  refine ⟨?_, ?_, ?_, ?_⟩ <;>
    simp [occursBefore, firstIdx]

theorem c1_witness :
    occursBefore (kConnect envHappy) Action.forwardToDb Action.listen = true ∧
    occursBefore (kConnect envHappy) Action.listen Action.emitLeader = true ∧
    occursBefore (kConnect envHappy) Action.emitLeader Action.flushConnect = true ∧
    occursBefore (kConnect envHappy) Action.forwardToDb Action.flushConnect = true :=
  c1_forward_precedes_flush envHappy rfl rfl rfl rfl rfl rfl rfl rfl rfl rfl

/-- C4: closing the facade makes every in-flight step observe a non-open
status at its next resumption point and stop there with no further effects:
at entry the election is a pure no-op, and after the follower connection
ends, after the engine opens, after the artifact unlink, and after the
server listen, the trace is cut off at exactly that point. -/
theorem c4_close_cancels_election (env : ConnectEnv) :
    (env.status0 ≠ Status.opened → kConnect env = []) ∧
    (env.status0 = Status.opened → env.status1 ≠ Status.opened →
       kConnect env = [Action.netConnect]) ∧
    (env.status0 = Status.opened → env.status1 = Status.opened →
       env.openResult = none → env.status2 ≠ Status.opened →
       kConnect env = [Action.netConnect, Action.attachDb]) ∧
    (env.status0 = Status.opened → env.status1 = Status.opened →
       env.openResult = none → env.status2 = Status.opened →
       env.status3 ≠ Status.opened →
       kConnect env = [Action.netConnect, Action.attachDb, Action.unlinkSocket]) ∧
    (env.status0 = Status.opened → env.status1 = Status.opened →
       env.openResult = none → env.status2 = Status.opened →
       env.status3 = Status.opened → env.unlinkResult = none →
       env.listenOutcome = ListenOutcome.ok → env.status4 ≠ Status.opened →
       kConnect env =
         [Action.netConnect, Action.attachDb, Action.unlinkSocket,
          Action.attachServer, Action.forwardToDb, Action.listen]) := by
  refine ⟨?_, ?_, ?_, ?_, ?_⟩
  · intro h0
    simp [kConnect, h0]
  · intro h0 h1
    simp [kConnect, h0, h1]
  · intro h0 h1 ho h2
    simp [kConnect, openCallback, h0, h1, ho, h2]
  · intro h0 h1 ho h2 h3
    simp [kConnect, openCallback, unlinkCallback, h0, h1, ho, h2, h3]
  · intro h0 h1 ho h2 h3 hu hl h4
    simp [kConnect, openCallback, unlinkCallback, serverPhase, listenCallback,
          h0, h1, ho, h2, h3, hu, hl, h4]

theorem c4_witness :
    kConnect { envHappy with status0 := Status.closing } = [] ∧
    kConnect { envHappy with status1 := Status.closing } = [Action.netConnect] ∧
    kConnect { envHappy with status2 := Status.closing } =
      [Action.netConnect, Action.attachDb] ∧
    kConnect { envHappy with status3 := Status.closing } =
      [Action.netConnect, Action.attachDb, Action.unlinkSocket] ∧
    kConnect { envHappy with status4 := Status.closing } =
      [Action.netConnect, Action.attachDb, Action.unlinkSocket,
       Action.attachServer, Action.forwardToDb, Action.listen] :=
  ⟨(c4_close_cancels_election { envHappy with status0 := Status.closing }).1
     (by decide),
   (c4_close_cancels_election { envHappy with status1 := Status.closing }).2.1
     rfl (by decide),
   (c4_close_cancels_election { envHappy with status2 := Status.closing }).2.2.1
     rfl rfl rfl (by decide),
   (c4_close_cancels_election { envHappy with status3 := Status.closing }).2.2.2.1
     rfl rfl rfl rfl (by decide),
   (c4_close_cancels_election { envHappy with status4 := Status.closing }).2.2.2.2
     rfl rfl rfl rfl rfl rfl rfl (by decide)⟩

/-- C5: every execution of the election attempt invokes the destroy routine
at most once; each destroyed fatal is surfaced as exactly one error signal
by `kDestroy` when the facade is open; and each of the four fatal
conditions — non-lock open failure, non-ENOENT unlink failure, server
bind/listen error, drain failure — produces exactly that one fatal in the
trace. -/
theorem c5_single_terminal_error (env : ConnectEnv) :
    (destroys (kConnect env)).length ≤ 1 ∧
    (∀ f, f ∈ destroys (kConnect env) →
       kDestroy Status.opened f = [Signal.errorSignal f]) ∧
    (∀ e, env.status0 = Status.opened → env.status1 = Status.opened →
       env.openResult = some e → isLevelLocked e = false →
       destroys (kConnect env) = [Fatal.openErr e]) ∧
    (∀ e, env.status0 = Status.opened → env.status1 = Status.opened →
       env.openResult = none → env.status2 = Status.opened →
       env.status3 = Status.opened → env.unlinkResult = some e →
       e.code ≠ some "ENOENT" →
       destroys (kConnect env) = [Fatal.unlinkErr e]) ∧
    (∀ e, env.status0 = Status.opened → env.status1 = Status.opened →
       env.openResult = none → env.status2 = Status.opened →
       env.status3 = Status.opened → env.unlinkResult = none →
       env.listenOutcome = ListenOutcome.err e →
       destroys (kConnect env) = [Fatal.serverErr e]) ∧
    (env.status0 = Status.opened → env.status1 = Status.opened →
       env.openResult = none → env.status2 = Status.opened →
       env.status3 = Status.opened → env.unlinkResult = none →
       env.listenOutcome = ListenOutcome.ok →
       env.status4 = Status.opened → env.status5 = Status.opened →
       env.flushed0 = false → env.flushedAtEnd = false →
       env.status6 = Status.opened →
       destroys (kConnect env) = [Fatal.didNotFlush env.flushPipeErr]) := by
  obtain ⟨s0, cf, s1, orr, s2, s3, ur, lo, s4, s5, f0, fpe, fae, s6⟩ := env
  refine ⟨?_, ?_, ?_, ?_, ?_, ?_⟩
  · cases orr <;> cases ur <;> cases lo <;>
      simp only [kConnect, openCallback, unlinkCallback, serverPhase,
        listenCallback, afterFlushPipe, destroys] <;>
      split_ifs <;>
      simp
  · intro f _
    simp [kDestroy]
  · intro e h0 h1 he hl
    cases he
    simp_all [kConnect, openCallback, destroys, hl]
  · intro e h0 h1 ho h2 h3 hu hc
    cases ho
    cases hu
    simp_all [kConnect, openCallback, unlinkCallback, destroys]
  · intro e h0 h1 ho h2 h3 hu hl
    cases ho
    cases hu
    cases hl
    simp_all [kConnect, openCallback, unlinkCallback, serverPhase, destroys]
  · intro h0 h1 ho h2 h3 hu hl h4 h5 hf hfe h6
    cases ho
    cases hu
    simp_all [kConnect, openCallback, unlinkCallback, serverPhase,
      listenCallback, afterFlushPipe, destroys]

theorem c5_witness :
    (destroys (kConnect envHappy)).length ≤ 1 ∧
    destroys (kConnect { envHappy with openResult := some accessErr }) =
      [Fatal.openErr accessErr] ∧
    destroys (kConnect { envHappy with unlinkResult := some epermErr }) =
      [Fatal.unlinkErr epermErr] ∧
    destroys (kConnect { envHappy with listenOutcome := ListenOutcome.err accessErr }) =
      [Fatal.serverErr accessErr] ∧
    destroys (kConnect { envHappy with flushedAtEnd := false }) =
      [Fatal.didNotFlush none] :=
  ⟨(c5_single_terminal_error envHappy).1,
   (c5_single_terminal_error { envHappy with openResult := some accessErr }).2.2.1
     accessErr rfl rfl rfl (by decide),
   (c5_single_terminal_error { envHappy with unlinkResult := some epermErr }).2.2.2.1
     epermErr rfl rfl rfl rfl rfl rfl (by decide),
   (c5_single_terminal_error
       { envHappy with listenOutcome := ListenOutcome.err accessErr }).2.2.2.2.1
     accessErr rfl rfl rfl rfl rfl rfl rfl,
   (c5_single_terminal_error { envHappy with flushedAtEnd := false }).2.2.2.2.2
     rfl rfl rfl rfl rfl rfl rfl rfl rfl rfl rfl rfl⟩

/-- Helper: the first index of `destroySock sock` in the mapped prefix of a
socket list containing `sock` is inside that prefix. -/
theorem firstIdx_destroy_mem (rest : List SrvAction) (l : List Nat) (sock : Nat)
    (h : sock ∈ l) :
    ∃ i, firstIdx (SrvAction.destroySock sock) (l.map SrvAction.destroySock ++ rest) =
      some i ∧ i < l.length := by
  induction l with
  | nil => cases h
  | cons a l ih =>
    by_cases hs : sock = a
    · subst hs
      refine ⟨0, ?_, Nat.succ_pos _⟩
      simp [firstIdx]
    · rcases List.mem_cons.mp h with h1 | h2
      · exact absurd h1 hs
      · obtain ⟨i, hi, hlt⟩ := ih h2
        refine ⟨i + 1, ?_, Nat.succ_lt_succ hlt⟩
        simp [firstIdx, hs, hi]

/-- Helper: an action that is not a `destroySock` is first found past the
mapped prefix, at its index in the remainder shifted by the prefix length. -/
theorem firstIdx_skip_destroys (b : SrvAction)
    (hb : ∀ s, b ≠ SrvAction.destroySock s) (rest : List SrvAction) (l : List Nat) :
    firstIdx b (l.map SrvAction.destroySock ++ rest) =
      (firstIdx b rest).map (· + l.length) := by
  induction l with
  | nil =>
    cases hfr : firstIdx b rest <;> simp [hfr]
  | cons a l ih =>
    cases hfr : firstIdx b rest <;>
      simp_all [firstIdx, hb a, Nat.add_assoc, Nat.add_comm 1]

/-- C7: the server close routine destroys every connection in the active set
before stopping the listener, stops the listener before invoking the
callback; a connection whose pipeline ends is removed from the active set
with no error raised; and close never emits an error signal. -/
theorem c7_server_close_order (sockets : List Nat) (sock : Nat)
    (h : sock ∈ sockets) :
    occursBefore (closeServer sockets) (SrvAction.destroySock sock)
      SrvAction.serverClose = true ∧
    occursBefore (closeServer sockets) SrvAction.serverClose
      SrvAction.closeCallback = true ∧
    onPipeEnd sockets sock = (sockets.erase sock, []) ∧
    (∀ e, SrvAction.emitErrorSrv e ∉ closeServer sockets) := by
  obtain ⟨i, hi, hlt⟩ := firstIdx_destroy_mem
    [SrvAction.removeErrorListener, SrvAction.serverClose, SrvAction.closeCallback]
    sockets sock h
  have hi' : firstIdx (SrvAction.destroySock sock) (closeServer sockets) = some i := by
    unfold closeServer
    exact hi
  have hsc : firstIdx SrvAction.serverClose (closeServer sockets) =
      some (1 + sockets.length) := by
    unfold closeServer
    rw [firstIdx_skip_destroys SrvAction.serverClose (by intro s; simp)]
    simp [firstIdx]
  have hcb : firstIdx SrvAction.closeCallback (closeServer sockets) =
      some (2 + sockets.length) := by
    unfold closeServer
    rw [firstIdx_skip_destroys SrvAction.closeCallback (by intro s; simp)]
    simp [firstIdx]
  refine ⟨?_, ?_, rfl, ?_⟩
  · unfold occursBefore
    rw [hi', hsc]
    simp only [decide_eq_true_eq]
    omega
  · unfold occursBefore
    rw [hsc, hcb]
    simp only [decide_eq_true_eq]
    omega
  · intro e
    simp [closeServer]

theorem c7_witness :
    occursBefore (closeServer [3, 1, 2]) (SrvAction.destroySock 1)
      SrvAction.serverClose = true ∧
    occursBefore (closeServer [3, 1, 2]) SrvAction.serverClose
      SrvAction.closeCallback = true ∧
    onPipeEnd [3, 1, 2] 1 = ([3, 2], []) ∧
    (∀ e, SrvAction.emitErrorSrv e ∉ closeServer [3, 1, 2]) := by
  have h := c7_server_close_order [3, 1, 2] 1 (by decide)
  exact ⟨h.1, h.2.1, h.2.2.1.trans (by decide), h.2.2.2⟩

/-- C8: the channel address is a deterministic function of the canonical
resolved path of the store location — two location spellings that resolve to
the same canonical path yield the same address, on every platform family
(both the win32 named-pipe branch and the socket-file branch). -/
theorem c8_address_deterministic (platform cwd l1 l2 : String)
    (h : resolvePath cwd l1 = resolvePath cwd l2) :
    channelAddress platform cwd l1 = channelAddress platform cwd l2 := by
  unfold channelAddress
  rw [h]

theorem c8_witness :
    resolvePath "/tmp" "db" = resolvePath "/tmp" "/tmp/x/../db" ∧
    channelAddress "linux" "/tmp" "db" =
      channelAddress "linux" "/tmp" "/tmp/x/../db" ∧
    channelAddress "win32" "/tmp" "db" =
      channelAddress "win32" "/tmp" "/tmp/x/../db" := by
  refine ⟨by decide, ?_, ?_⟩
  · exact c8_address_deterministic "linux" "/tmp" "db" "/tmp/x/../db" (by decide)
  · exact c8_address_deterministic "win32" "/tmp" "db" "/tmp/x/../db" (by decide)

end RaveLevel
